import Mathlib

/-!
Verification of the heart-disease risk calculator (`src/streamlit_app.py`).

The whole program is a single script: it loads a serialized classifier
(memoized per process), collects 13 clinical inputs from bounded widgets,
assembles a single-row named record, and on an explicit trigger runs one
inference call and renders a thresholded risk classification.

The embedding below is shallow: Python string operations (`split`, `strip`,
`int`) are modelled on `List Char`; the widget state is a structure whose
valid states are exactly the domains the widgets allow; floats are modelled
as rationals; the page run is a pure function returning the list of rendered
items; the classifier artifact is an abstract probability function; the
filesystem state at the artifact path is an explicit parameter.
-/

namespace HeartApp

/-! ### Python string primitives

`pySplitGo`/`pySplit` model Python `str.split(sep)` for a one-character
separator, `pyLast` models the `[-1]` index (total because `split` never
returns an empty list), `pyStrip` models `str.strip(c)` for a one-character
argument, and `pyInt` models `int(s)` (whitespace-stripped optional sign
followed by a nonempty digit string; anything else raises, i.e. `none`). -/

def pySplitGo (sep : Char) : List Char → List Char → List (List Char)
  | [], acc => [acc.reverse]
  | c :: rest, acc =>
    if c = sep then acc.reverse :: pySplitGo sep rest []
    else pySplitGo sep rest (c :: acc)

def pySplit (sep : Char) (cs : List Char) : List (List Char) :=
  pySplitGo sep cs []

def pyLast (l : List (List Char)) : List Char :=
  l.getLast?.getD []

def pyStrip (c : Char) (cs : List Char) : List Char :=
  ((cs.dropWhile (· = c)).reverse.dropWhile (· = c)).reverse

def digitVal (c : Char) : ℕ := c.toNat - 48

def digitsVal (cs : List Char) : ℕ :=
  cs.foldl (fun a c => 10 * a + digitVal c) 0

def pyDigits (cs : List Char) : Option ℕ :=
  if cs ≠ [] ∧ cs.all Char.isDigit then some (digitsVal cs) else none

def stripWhitespace (cs : List Char) : List Char :=
  ((cs.dropWhile Char.isWhitespace).reverse.dropWhile Char.isWhitespace).reverse

def pyIntCore (t : List Char) : Option ℤ :=
  if t.head? = some '-' then (pyDigits t.tail).map (fun v => -(v : ℤ))
  else if t.head? = some '+' then (pyDigits t.tail).map (fun v => (v : ℤ))
  else (pyDigits t).map (fun v => (v : ℤ))

def pyInt (cs : List Char) : Option ℤ :=
  pyIntCore (stripWhitespace cs)

/-- `int(label.split("(")[-1].strip(")"))`, the collector's extraction of the
integer code embedded in a choice label (source lines 48 and 76). -/
def parseTrailingCodeL (cs : List Char) : Option ℤ :=
  pyInt (pyStrip ')' (pyLast (pySplit '(' cs)))

def parseTrailingCode (s : String) : Option ℤ :=
  parseTrailingCodeL s.toList

/-! ### Feature schema and the input collector -/

/-- A Python value stored in the `data` dict: every field is an `int` except
`oldpeak`, which is a float (modelled as a rational). -/
inductive PyVal where
  | i : ℤ → PyVal
  | f : ℚ → PyVal
deriving DecidableEq, Repr

/-- The 13 feature names, in the order the `data` dict lists them
(source lines 79–93). -/
def featureSchema : List String :=
  ["age", "sex", "cp", "trestbps", "chol", "fbs", "restecg",
   "thalach", "exang", "oldpeak", "slope", "ca", "thal"]

/-- The choices offered by the chest-pain selectbox (source lines 42–47). -/
def cpChoices : List String :=
  ["Typical Angina (0)", "Atypical Angina (1)",
   "Non-anginal Pain (2)", "Asymptomatic (3)"]

/-- The choices offered by the thalassemia selectbox (source lines 71–75). -/
def thalChoices : List String :=
  ["Normal (1)", "Fixed Defect (2)", "Reversible Defect (3)"]

/-- `sex = 1 if sex_option == "Male" else 0` (source line 39). -/
def sexCode (sex_option : String) : ℤ :=
  if sex_option = "Male" then 1 else 0

/-- `fbs = 1 if fbs_option == "Yes" else 0` (source line 59). -/
def fbsCode (fbs_option : String) : ℤ :=
  if fbs_option = "Yes" then 1 else 0

/-- `exang = 1 if exang_option == "Yes" else 0` (source line 64). -/
def exangCode (exang_option : String) : ℤ :=
  if exang_option = "Yes" then 1 else 0

/-- The raw widget state `user_input_features` reads: one field per control,
holding the currently selected value. -/
structure Inputs where
  age : ℤ
  sex_option : String
  cp_option : String
  trestbps : ℤ
  chol : ℤ
  thalach : ℤ
  fbs_option : String
  restecg : ℤ
  exang_option : String
  oldpeak : ℚ
  slope : ℤ
  ca : ℤ
  thal_option : String
deriving DecidableEq, Repr

/-- The states the widgets can actually be in: sliders clamp to their bounds,
selectboxes and radios only yield one of the offered options
(source lines 35–76). -/
def ValidInputs (w : Inputs) : Prop :=
  (20 ≤ w.age ∧ w.age ≤ 80) ∧
  (w.sex_option = "Male" ∨ w.sex_option = "Female") ∧
  w.cp_option ∈ cpChoices ∧
  (80 ≤ w.trestbps ∧ w.trestbps ≤ 200) ∧
  (100 ≤ w.chol ∧ w.chol ≤ 600) ∧
  (60 ≤ w.thalach ∧ w.thalach ≤ 220) ∧
  (w.fbs_option = "No" ∨ w.fbs_option = "Yes") ∧
  (w.restecg = 0 ∨ w.restecg = 1 ∨ w.restecg = 2) ∧
  (w.exang_option = "No" ∨ w.exang_option = "Yes") ∧
  (0 ≤ w.oldpeak ∧ w.oldpeak ≤ mkRat 31 5) ∧
  (w.slope = 0 ∨ w.slope = 1 ∨ w.slope = 2) ∧
  (0 ≤ w.ca ∧ w.ca ≤ 3) ∧
  w.thal_option ∈ thalChoices

instance (w : Inputs) : Decidable (ValidInputs w) := by
  unfold ValidInputs; infer_instance

/-- The default widget state: each control's stated default
(source lines 35–76: 58, Male, index 2, 120, 210, 130, No, 1, No, 1.5, 1, 0,
index 1). -/
def defaultInputs : Inputs :=
  { age := 58, sex_option := "Male", cp_option := "Non-anginal Pain (2)",
    trestbps := 120, chol := 210, thalach := 130, fbs_option := "No",
    restecg := 1, exang_option := "No", oldpeak := mkRat 3 2, slope := 1,
    ca := 0, thal_option := "Fixed Defect (2)" }

/-- `user_input_features` (source lines 33–95): maps the raw selections to
numeric codes and builds the single-row record keyed by the schema names.
The result is `none` when `int(...)` would raise on a malformed label. -/
def user_input_features (w : Inputs) : Option (List (String × PyVal)) :=
  match parseTrailingCode w.cp_option, parseTrailingCode w.thal_option with
  | some cp, some thal =>
    some [("age", .i w.age),
          ("sex", .i (sexCode w.sex_option)),
          ("cp", .i cp),
          ("trestbps", .i w.trestbps),
          ("chol", .i w.chol),
          ("fbs", .i (fbsCode w.fbs_option)),
          ("restecg", .i w.restecg),
          ("thalach", .i w.thalach),
          ("exang", .i (exangCode w.exang_option)),
          ("oldpeak", .f w.oldpeak),
          ("slope", .i w.slope),
          ("ca", .i w.ca),
          ("thal", .i thal)]
  | _, _ => none

/-- Looking a field up by name in the record (the by-name binding the
DataFrame provides downstream). -/
def fieldVal (r : List (String × PyVal)) (name : String) : Option PyVal :=
  (r.find? (fun p => p.1 = name)).map (fun p => p.2)

/-! ### Risk classifier (source lines 110–129) -/

/-- `THRESHOLD = 0.3` (source line 111). -/
def THRESHOLD : ℚ := mkRat 3 10

/-- `is_high_risk = prediction_prob >= THRESHOLD` (source line 112). -/
def is_high_risk (p : ℚ) : Bool := THRESHOLD ≤ p

inductive RiskLabel where
  | HIGH
  | LOW
deriving DecidableEq, Repr

/-- The pure classification the display branch implements (source lines
124–129): probability at or above the threshold yields the high-risk label
and the cardiology referral, otherwise the low-risk label and standard
follow-up. -/
def classify (p : ℚ) : RiskLabel × String :=
  if is_high_risk p then (.HIGH, "Refer to Cardiology")
  else (.LOW, "Standard Follow-up")

/-! ### Predictor gateway (source lines 17–25)

`joblib.load` is an external call: it returns the deserialized artifact,
raises `FileNotFoundError` when the path does not resolve, and raises a
deserialization error (e.g. `UnpicklingError`) on a corrupt file.  The
artifact itself is opaque: all the script uses is
`model.predict_proba(input_df)[0][1]`, a probability read off the record,
modelled as a function from the record to `ℚ`. -/

/-- The artifact: one probability per single-row record. -/
def ClassifierModel : Type := List (String × PyVal) → ℚ

/-- The exceptions the load can raise, plus the `ValueError` that a malformed
label would raise inside `user_input_features`. -/
inductive PyErr where
  | fileNotFound
  | unpicklingError
  | valueError
deriving DecidableEq

/-- State of the filesystem at `'heart_disease_rf_model.pkl'`: the file is
absent, present but not deserializable, or holds a model. -/
inductive FsState where
  | absent
  | corrupt
  | present (m : ClassifierModel)

/-- `joblib.load('heart_disease_rf_model.pkl')` (source line 20). -/
def joblibLoad : FsState → Except PyErr ClassifierModel
  | .absent => .error .fileNotFound
  | .corrupt => .error .unpicklingError
  | .present m => .ok m

/-- The error banner printed when the model file is missing
(source line 22). -/
def missingModelMsg : String :=
  "Model file not found! Please run 'deploy_model.py' first to generate the .pkl file."

/-- One item rendered on the page, in order of emission. -/
inductive Render where
  | errorBox (msg : String)
  | successBox (msg : String)
  | subheader (s : String)
  | dataSummary (r : List (String × PyVal))
  | divider
  | metricProb (p : ℚ)
  | writeText (s : String)
  | progress (n : ℤ)
  | caption (threshold : ℚ)
deriving DecidableEq

/-- The body of `load_model` (source lines 18–23), before memoization: one
`joblib.load` attempt; `FileNotFoundError` is caught, renders the error
banner and returns `None`; any other exception propagates.  The result pairs
the returned value with the renders the call emitted. -/
def loadModelBody (fs : FsState) :
    Except PyErr (Option ClassifierModel × List Render) :=
  match joblibLoad fs with
  | .ok m => .ok (some m, [])
  | .error .fileNotFound => .ok (none, [.errorBox missingModelMsg])
  | .error e => .error e

/-- The `@st.cache_resource` memoization state: the cached return value of
`load_model` (if any) and how many `joblib.load` attempts (deserializations
from storage) have happened in this process. -/
structure CacheState where
  cache : Option (Option ClassifierModel)
  loads : ℕ

/-- A fresh process: nothing cached, no load attempted yet. -/
def initCache : CacheState := { cache := none, loads := 0 }

/-- `load_model()` under `@st.cache_resource` (source lines 17–25): if a
value is cached it is returned as-is with no body call; otherwise the body
runs once (one deserialization attempt) and its return value is cached. -/
def load_model (fs : FsState) (s : CacheState) :
    CacheState × Except PyErr (Option ClassifierModel × List Render) :=
  match s.cache with
  | some v => (s, .ok (v, []))
  | none =>
    match loadModelBody fs with
    | .ok (v, r) => ({ cache := some v, loads := s.loads + 1 }, .ok (v, r))
    | .error e => ({ cache := none, loads := s.loads + 1 }, .error e)

/-- `int(prediction_prob * 100)` (source line 132): Python `int` truncates
toward zero, and truncation of `q * 100` depends only on the rational value,
so it is the truncated quotient of `q.num * 100` by `q.den`. -/
def pyTruncTimes100 (q : ℚ) : ℤ := Int.tdiv (q.num * 100) q.den

/-- The script body after `model = load_model()` (source lines 98–133): the
record is built and echoed unconditionally; when the button is pressed and
`model` is truthy (not `None`) the probability, the badge chosen by the
threshold, the recommendation, the progress bar and the caption are rendered.
`none` is the `ValueError` crash of a malformed label. -/
def runApp (model : Option ClassifierModel) (w : Inputs) (pressed : Bool) :
    Option (List Render) :=
  match user_input_features w with
  | none => none
  | some input_df =>
    let base := [Render.subheader "Patient Data Summary",
                 Render.dataSummary input_df]
    if pressed then
      match model with
      | some m =>
        let prediction_prob := m input_df
        some (base ++
          [.divider, .subheader "Assessment Result",
           .metricProb prediction_prob] ++
          (if is_high_risk prediction_prob then
            [.errorBox "**HIGH RISK**",
             .writeText "Recommendation: **Refer to Cardiology**"]
          else
            [.successBox "**LOW RISK**",
             .writeText "Recommendation: **Standard Follow-up**"]) ++
          [.progress (pyTruncTimes100 prediction_prob),
           .caption THRESHOLD])
      | none => some base
    else some base

/-- A full run of the script in a fresh process: memoized load, then the
page body.  Uncaught exceptions (deserialization failure, malformed label)
surface as `Except.error`. -/
def runScript (fs : FsState) (w : Inputs) (pressed : Bool) :
    CacheState × Except PyErr (List Render) :=
  match load_model fs initCache with
  | (s, .error e) => (s, .error e)
  | (s, .ok (model, r0)) =>
    match runApp model w pressed with
    | none => (s, .error .valueError)
    | some r => (s, .ok (r0 ++ r))

/-- The renders belonging to the results section: the probability metric,
either risk badge, the recommendation line, and the progress bar. -/
def isResultItem : Render → Bool
  | .metricProb _ => true
  | .errorBox "**HIGH RISK**" => true
  | .successBox "**LOW RISK**" => true
  | .writeText _ => true
  | .progress _ => true
  | _ => false

/-! ### Decimal rendering of a natural number

Spec-side representation of "a label whose trailing parenthesized text is
the decimal digits of `N`", used to state the parsing claim for every `N`
and every wording before the code. -/

def digitChar : ℕ → Char
  | 0 => '0' | 1 => '1' | 2 => '2' | 3 => '3' | 4 => '4'
  | 5 => '5' | 6 => '6' | 7 => '7' | 8 => '8' | _ => '9'

def digitChars : List Char := ['0','1','2','3','4','5','6','7','8','9']

def natToDigits (n : ℕ) : List Char :=
  if n < 10 then [digitChar n]
  else natToDigits (n / 10) ++ [digitChar (n % 10)]
decreasing_by exact Nat.div_lt_self (by omega) (by omega)

end HeartApp

namespace HeartApp

lemma digitChar_mem_digitChars (d : ℕ) : digitChar d ∈ digitChars := by
  match d with
  | 0 | 1 | 2 | 3 | 4 | 5 | 6 | 7 | 8 => decide
  | n + 9 => exact (by decide : '9' ∈ digitChars)

lemma digitVal_digitChar (d : ℕ) (h : d < 10) : digitVal (digitChar d) = d := by
  interval_cases d <;> decide

lemma digitChars_props :
    ∀ c ∈ digitChars, c.isDigit = true ∧ c.isWhitespace = false ∧
      c ≠ '(' ∧ c ≠ ')' ∧ c ≠ '-' ∧ c ≠ '+' := by decide

lemma natToDigits_ne_nil (n : ℕ) : natToDigits n ≠ [] := by
  rw [natToDigits]
  split
  · simp
  · simp

lemma natToDigits_mem (n : ℕ) : ∀ c ∈ natToDigits n, c ∈ digitChars := by
  induction n using Nat.strong_induction_on with
  | _ n ih =>
    rw [natToDigits]
    split
    · intro c hc
      rw [List.mem_singleton] at hc
      exact hc ▸ digitChar_mem_digitChars n
    · intro c hc
      rcases List.mem_append.mp hc with h1 | h2
      · exact ih (n / 10) (Nat.div_lt_self (by omega) (by omega)) c h1
      · rw [List.mem_singleton] at h2
        exact h2 ▸ digitChar_mem_digitChars (n % 10)

lemma digitsVal_append_singleton (xs : List Char) (c : Char) :
    digitsVal (xs ++ [c]) = 10 * digitsVal xs + digitVal c := by
  unfold digitsVal
  rw [List.foldl_append]
  rfl

lemma digitsVal_natToDigits (n : ℕ) : digitsVal (natToDigits n) = n := by
  induction n using Nat.strong_induction_on with
  | _ n ih =>
    rw [natToDigits]
    split
    · rename_i h
      show digitsVal [digitChar n] = n
      unfold digitsVal
      simp [List.foldl, digitVal_digitChar n h]
    · rename_i h
      rw [digitsVal_append_singleton,
        ih (n / 10) (Nat.div_lt_self (by omega) (by omega)),
        digitVal_digitChar (n % 10) (Nat.mod_lt n (by omega))]
      omega

lemma dropWhile_eq_self_of_false {α : Type} {p : α → Bool} {l : List α}
    (h : ∀ x ∈ l, p x = false) : l.dropWhile p = l := by
  cases l with
  | nil => rfl
  | cons a l =>
    exact List.dropWhile_cons_of_neg (by simp [h a (List.mem_cons_self a l)])

lemma pySplitGo_ne_nil (sep : Char) :
    ∀ (cs acc : List Char), pySplitGo sep cs acc ≠ [] := by
  intro cs
  induction cs with
  | nil => intro acc; simp [pySplitGo]
  | cons c rest ih =>
    intro acc
    rw [pySplitGo]
    split
    · simp
    · exact ih (c :: acc)

lemma pySplitGo_no_sep (sep : Char) :
    ∀ (cs acc : List Char), sep ∉ cs →
      pySplitGo sep cs acc = [acc.reverse ++ cs] := by
  intro cs
  induction cs with
  | nil => intro acc _; simp [pySplitGo]
  | cons c rest ih =>
    intro acc h
    rw [pySplitGo]
    rw [List.mem_cons, not_or] at h
    rw [if_neg (fun e => h.1 e.symm), ih (c :: acc) h.2]
    simp

lemma getLast?_cons_of_ne_nil {α : Type} (a : α) {l : List α} (h : l ≠ []) :
    (a :: l).getLast? = l.getLast? := by
  cases l with
  | nil => exact absurd rfl h
  | cons b t => simp [List.getLast?_cons_cons]

lemma pySplitGo_getLast (sep : Char) {ys : List Char} (h : sep ∉ ys) :
    ∀ (xs acc : List Char),
      (pySplitGo sep (xs ++ sep :: ys) acc).getLast? = some ys := by
  intro xs
  induction xs with
  | nil =>
    intro acc
    rw [List.nil_append, pySplitGo, if_pos rfl, pySplitGo_no_sep sep ys [] h]
    rw [getLast?_cons_of_ne_nil _ (by simp)]
    simp
  | cons x xs ih =>
    intro acc
    rw [List.cons_append, pySplitGo]
    split
    · rw [getLast?_cons_of_ne_nil _ (pySplitGo_ne_nil sep _ [])]
      exact ih []
    · exact ih (x :: acc)

lemma pyStrip_append_digits (ds : List Char) (h : ∀ c ∈ ds, c ∈ digitChars) :
    pyStrip ')' (ds ++ [')']) = ds := by
  unfold pyStrip
  cases ds with
  | nil => rfl
  | cons d rest =>
    have hd := digitChars_props d (h d (List.mem_cons_self d rest))
    rw [List.cons_append, List.dropWhile_cons_of_neg (by simp [hd.2.2.2.1])]
    rw [show (d :: (rest ++ [')'])).reverse = ')' :: (d :: rest).reverse by simp]
    rw [List.dropWhile_cons_of_pos (by simp)]
    rw [dropWhile_eq_self_of_false (fun x hx => by
      have := digitChars_props x (h x (List.mem_reverse.mp hx))
      simp [this.2.2.2.1])]
    simp

lemma stripWhitespace_of_digits (ds : List Char)
    (h : ∀ c ∈ ds, c ∈ digitChars) : stripWhitespace ds = ds := by
  unfold stripWhitespace
  rw [dropWhile_eq_self_of_false (fun x hx => (digitChars_props x (h x hx)).2.1)]
  rw [dropWhile_eq_self_of_false (fun x hx =>
    (digitChars_props x (h x (List.mem_reverse.mp hx))).2.1)]
  exact List.reverse_reverse ds

lemma pyInt_digits (ds : List Char) (hne : ds ≠ [])
    (h : ∀ c ∈ ds, c ∈ digitChars) :
    pyInt ds = some ((digitsVal ds : ℕ) : ℤ) := by
  rw [pyInt, stripWhitespace_of_digits ds h]
  cases ds with
  | nil => exact absurd rfl hne
  | cons d rest =>
    have hd := digitChars_props d (h d (List.mem_cons_self d rest))
    rw [pyIntCore]
    rw [if_neg (by simp [hd.2.2.2.2.1]), if_neg (by simp [hd.2.2.2.2.2])]
    rw [pyDigits, if_pos ⟨by simp, List.all_eq_true.mpr
      (fun c hc => (digitChars_props c (h c hc)).1)⟩]
    rfl

lemma parseTrailingCodeL_trailing (w : List Char) (n : ℕ) :
    parseTrailingCodeL (w ++ '(' :: (natToDigits n ++ [')'])) = some (n : ℤ) := by
  have hns : '(' ∉ natToDigits n ++ [')'] := by
    intro hmem
    rcases List.mem_append.mp hmem with h1 | h2
    · exact absurd (natToDigits_mem n _ h1) (by decide)
    · rw [List.mem_singleton] at h2
      exact absurd h2 (by decide)
  rw [parseTrailingCodeL, pySplit, pyLast, pySplitGo_getLast '(' hns w []]
  rw [Option.getD_some, pyStrip_append_digits _ (natToDigits_mem n)]
  rw [pyInt_digits _ (natToDigits_ne_nil n) (natToDigits_mem n),
    digitsVal_natToDigits]

lemma parse_cp_of_valid (w : Inputs) (h : ValidInputs w) :
    ∃ k, parseTrailingCode w.cp_option = some k ∧
      (k = 0 ∨ k = 1 ∨ k = 2 ∨ k = 3) := by
  have hcp := h.2.2.1
  simp only [cpChoices, List.mem_cons, List.mem_singleton,
    List.not_mem_nil, or_false] at hcp
  rcases hcp with e | e | e | e
  · exact ⟨0, by rw [e]; decide, by decide⟩
  · exact ⟨1, by rw [e]; decide, by decide⟩
  · exact ⟨2, by rw [e]; decide, by decide⟩
  · exact ⟨3, by rw [e]; decide, by decide⟩

lemma parse_thal_of_valid (w : Inputs) (h : ValidInputs w) :
    ∃ k, parseTrailingCode w.thal_option = some k ∧
      (k = 1 ∨ k = 2 ∨ k = 3) := by
  have ht := h.2.2.2.2.2.2.2.2.2.2.2.2
  simp only [thalChoices, List.mem_cons, List.mem_singleton,
    List.not_mem_nil, or_false] at ht
  rcases ht with e | e | e
  · exact ⟨1, by rw [e]; decide, by decide⟩
  · exact ⟨2, by rw [e]; decide, by decide⟩
  · exact ⟨3, by rw [e]; decide, by decide⟩

lemma uif_eq_of_valid (w : Inputs) (h : ValidInputs w) :
    ∃ cp thal : ℤ, (cp = 0 ∨ cp = 1 ∨ cp = 2 ∨ cp = 3) ∧
      (thal = 1 ∨ thal = 2 ∨ thal = 3) ∧
      user_input_features w = some
        [("age", .i w.age),
         ("sex", .i (sexCode w.sex_option)),
         ("cp", .i cp),
         ("trestbps", .i w.trestbps),
         ("chol", .i w.chol),
         ("fbs", .i (fbsCode w.fbs_option)),
         ("restecg", .i w.restecg),
         ("thalach", .i w.thalach),
         ("exang", .i (exangCode w.exang_option)),
         ("oldpeak", .f w.oldpeak),
         ("slope", .i w.slope),
         ("ca", .i w.ca),
         ("thal", .i thal)] := by
  obtain ⟨cp, hcp, hcpd⟩ := parse_cp_of_valid w h
  obtain ⟨th, hth, hthd⟩ := parse_thal_of_valid w h
  exact ⟨cp, th, hcpd, hthd, by rw [user_input_features, hcp, hth]⟩

lemma uif_some_of_valid (w : Inputs) (h : ValidInputs w) :
    ∃ df, user_input_features w = some df := by
  obtain ⟨cp, th, _, _, he⟩ := uif_eq_of_valid w h
  exact ⟨_, he⟩

/-- Claim C1: the risk classification is a pure function of the probability
with exact threshold 0.3: probability at or above the threshold yields the
HIGH label with the cardiology referral, below it the LOW label with
standard follow-up; in particular at 0.3, 0.2999, 1.0 and 0.0; and
`is_high_risk` is monotonic in the probability. -/
theorem claim_C1_classify_threshold :
    (∀ p : ℚ,
      (THRESHOLD ≤ p → classify p = (RiskLabel.HIGH, "Refer to Cardiology")) ∧
      (p < THRESHOLD → classify p = (RiskLabel.LOW, "Standard Follow-up"))) ∧
    THRESHOLD = mkRat 3 10 ∧
    classify (mkRat 3 10) = (RiskLabel.HIGH, "Refer to Cardiology") ∧
    classify (mkRat 2999 10000) = (RiskLabel.LOW, "Standard Follow-up") ∧
    classify 1 = (RiskLabel.HIGH, "Refer to Cardiology") ∧
    classify 0 = (RiskLabel.LOW, "Standard Follow-up") ∧
    (∀ p q : ℚ, p ≤ q → is_high_risk p = true → is_high_risk q = true) := by
  refine ⟨fun p => ⟨fun h => ?_, fun h => ?_⟩, rfl, by decide, by decide,
    by decide, by decide, fun p q hpq hp => ?_⟩
  · simp [classify, is_high_risk, h]
  · simp [classify, is_high_risk, not_le.mpr h]
  · simp only [is_high_risk, decide_eq_true_eq] at hp ⊢
    exact le_trans hp hpq

theorem claim_C1_witness :
    classify (mkRat 1 2) = (RiskLabel.HIGH, "Refer to Cardiology") ∧
    classify (mkRat 1 10) = (RiskLabel.LOW, "Standard Follow-up") ∧
    is_high_risk (mkRat 2 5) = true :=
  ⟨(claim_C1_classify_threshold.1 (mkRat 1 2)).1 (by decide),
   (claim_C1_classify_threshold.1 (mkRat 1 10)).2 (by decide),
   claim_C1_classify_threshold.2.2.2.2.2.2 (mkRat 3 10) (mkRat 2 5)
     (by decide) (by decide)⟩

/-- Claim C7: the label-to-code mapping is a total deterministic function on
the offered choices: Male maps to 1 and Female to 0, Yes to 1 and No to 0 for
both yes/no questions, and each labeled categorical choice maps to exactly
one integer code (determinism is inherent: the mappings are functions of the
label alone). -/
theorem claim_C7_label_codes :
    sexCode "Male" = 1 ∧ sexCode "Female" = 0 ∧
    fbsCode "Yes" = 1 ∧ fbsCode "No" = 0 ∧
    exangCode "Yes" = 1 ∧ exangCode "No" = 0 ∧
    cpChoices.map parseTrailingCode = [some 0, some 1, some 2, some 3] ∧
    thalChoices.map parseTrailingCode = [some 1, some 2, some 3] := by
  decide

/-- Claim C8: for every wording `w` and every code `N`, the collector's parse
of a label that ends in the parenthesized decimal digits of `N` returns `N`,
whatever the wording before the trailing code; in particular the two labels
named in the claim parse to 2. -/
theorem claim_C8_trailing_code :
    (∀ (w : String) (n : ℕ),
      parseTrailingCode (w ++ "(" ++ String.mk (natToDigits n) ++ ")")
        = some (n : ℤ)) ∧
    parseTrailingCode "Non-anginal Pain (2)" = some 2 ∧
    parseTrailingCode "Fixed Defect (2)" = some 2 := by
  refine ⟨fun w n => ?_, by decide, by decide⟩
  have he : (w ++ "(" ++ String.mk (natToDigits n) ++ ")").toList
      = w.toList ++ '(' :: (natToDigits n ++ [')']) := by
    show (w ++ "(" ++ String.mk (natToDigits n) ++ ")").data
      = w.data ++ '(' :: (natToDigits n ++ [')'])
    simp [String.data_append]
  rw [parseTrailingCode, he]
  exact parseTrailingCodeL_trailing w.toList n

/-- The stub predictor fixed at probability 0.45. -/
def stubHigh : ClassifierModel := fun _ => mkRat 45 100

/-- The stub predictor fixed at probability 0.1. -/
def stubLow : ClassifierModel := fun _ => mkRat 1 10

/-- Claim C2: on the fixed scenario inputs (which are exactly the widget
defaults) the collector and builder produce the stated 13-field record; with
a stub predictor fixed at 0.45 the assessment renders the HIGH badge and the
cardiology referral, with a stub fixed at 0.1 the LOW badge and standard
follow-up. -/
theorem claim_C2_end_to_end :
    user_input_features defaultInputs = some
      [("age", PyVal.i 58), ("sex", PyVal.i 1), ("cp", PyVal.i 2),
       ("trestbps", PyVal.i 120), ("chol", PyVal.i 210), ("fbs", PyVal.i 0),
       ("restecg", PyVal.i 1), ("thalach", PyVal.i 130), ("exang", PyVal.i 0),
       ("oldpeak", PyVal.f (mkRat 3 2)), ("slope", PyVal.i 1),
       ("ca", PyVal.i 0), ("thal", PyVal.i 2)] ∧
    classify (mkRat 45 100) = (RiskLabel.HIGH, "Refer to Cardiology") ∧
    runApp (some stubHigh) defaultInputs true = some
      [Render.subheader "Patient Data Summary",
       Render.dataSummary
        [("age", PyVal.i 58), ("sex", PyVal.i 1), ("cp", PyVal.i 2),
         ("trestbps", PyVal.i 120), ("chol", PyVal.i 210), ("fbs", PyVal.i 0),
         ("restecg", PyVal.i 1), ("thalach", PyVal.i 130), ("exang", PyVal.i 0),
         ("oldpeak", PyVal.f (mkRat 3 2)), ("slope", PyVal.i 1),
         ("ca", PyVal.i 0), ("thal", PyVal.i 2)],
       Render.divider, Render.subheader "Assessment Result",
       Render.metricProb (mkRat 45 100),
       Render.errorBox "**HIGH RISK**",
       Render.writeText "Recommendation: **Refer to Cardiology**",
       Render.progress 45, Render.caption THRESHOLD] ∧
    classify (mkRat 1 10) = (RiskLabel.LOW, "Standard Follow-up") ∧
    runApp (some stubLow) defaultInputs true = some
      [Render.subheader "Patient Data Summary",
       Render.dataSummary
        [("age", PyVal.i 58), ("sex", PyVal.i 1), ("cp", PyVal.i 2),
         ("trestbps", PyVal.i 120), ("chol", PyVal.i 210), ("fbs", PyVal.i 0),
         ("restecg", PyVal.i 1), ("thalach", PyVal.i 130), ("exang", PyVal.i 0),
         ("oldpeak", PyVal.f (mkRat 3 2)), ("slope", PyVal.i 1),
         ("ca", PyVal.i 0), ("thal", PyVal.i 2)],
       Render.divider, Render.subheader "Assessment Result",
       Render.metricProb (mkRat 1 10),
       Render.successBox "**LOW RISK**",
       Render.writeText "Recommendation: **Standard Follow-up**",
       Render.progress 10, Render.caption THRESHOLD] := by
  refine ⟨by decide, by decide, by decide, by decide, by decide⟩

/-- Claim C3: for every valid combination of the 13 input domains the builder
produces a single-row record whose field names are exactly the 13 schema
names, none missing and none extra, and every schema name resolves by name
in the record. -/
theorem claim_C3_schema_names (w : Inputs) (h : ValidInputs w) :
    ∃ r, user_input_features w = some r ∧
      r.map Prod.fst = featureSchema ∧
      ∀ name ∈ featureSchema, (fieldVal r name).isSome = true := by
  obtain ⟨cp, th, _, _, he⟩ := uif_eq_of_valid w h
  refine ⟨_, he, rfl, ?_⟩
  intro name hname
  fin_cases hname <;> rfl

theorem claim_C3_witness :
    ValidInputs defaultInputs ∧
    ∃ r, user_input_features defaultInputs = some r ∧
      r.map Prod.fst = featureSchema ∧
      ∀ name ∈ featureSchema, (fieldVal r name).isSome = true :=
  ⟨by decide, claim_C3_schema_names defaultInputs (by decide)⟩

/-- Claim C9: every record the collector produces from a reachable widget
state has all 13 fields present and within their declared domains: sex, fbs
and exang in 0/1, cp in 0–3, restecg and slope in 0–2, ca in 0–3, thal in
1–3, and the numeric fields within the widget bounds. -/
theorem claim_C9_domain_invariant (w : Inputs) (h : ValidInputs w) :
    ∃ r, user_input_features w = some r ∧
      r.map Prod.fst = featureSchema ∧
      (∃ a, fieldVal r "age" = some (.i a) ∧ 20 ≤ a ∧ a ≤ 80) ∧
      (∃ s, fieldVal r "sex" = some (.i s) ∧ (s = 0 ∨ s = 1)) ∧
      (∃ k, fieldVal r "cp" = some (.i k) ∧
        (k = 0 ∨ k = 1 ∨ k = 2 ∨ k = 3)) ∧
      (∃ t, fieldVal r "trestbps" = some (.i t) ∧ 80 ≤ t ∧ t ≤ 200) ∧
      (∃ c, fieldVal r "chol" = some (.i c) ∧ 100 ≤ c ∧ c ≤ 600) ∧
      (∃ b, fieldVal r "fbs" = some (.i b) ∧ (b = 0 ∨ b = 1)) ∧
      (∃ e, fieldVal r "restecg" = some (.i e) ∧ (e = 0 ∨ e = 1 ∨ e = 2)) ∧
      (∃ m, fieldVal r "thalach" = some (.i m) ∧ 60 ≤ m ∧ m ≤ 220) ∧
      (∃ x, fieldVal r "exang" = some (.i x) ∧ (x = 0 ∨ x = 1)) ∧
      (∃ o, fieldVal r "oldpeak" = some (.f o) ∧ 0 ≤ o ∧ o ≤ mkRat 31 5) ∧
      (∃ sl, fieldVal r "slope" = some (.i sl) ∧
        (sl = 0 ∨ sl = 1 ∨ sl = 2)) ∧
      (∃ v, fieldVal r "ca" = some (.i v) ∧ 0 ≤ v ∧ v ≤ 3) ∧
      (∃ t2, fieldVal r "thal" = some (.i t2) ∧
        (t2 = 1 ∨ t2 = 2 ∨ t2 = 3)) := by
  obtain ⟨cp, th, hcpd, hthd, he⟩ := uif_eq_of_valid w h
  obtain ⟨⟨ha1, ha2⟩, hsex, hcpm, ⟨htr1, htr2⟩, ⟨hch1, hch2⟩, ⟨hta1, hta2⟩,
    hfbs, hre, hex, ⟨ho1, ho2⟩, hsl, ⟨hca1, hca2⟩, hthm⟩ := h
  refine ⟨_, he, rfl,
    ⟨w.age, rfl, ha1, ha2⟩,
    ⟨sexCode w.sex_option, rfl, ?_⟩,
    ⟨cp, rfl, hcpd⟩,
    ⟨w.trestbps, rfl, htr1, htr2⟩,
    ⟨w.chol, rfl, hch1, hch2⟩,
    ⟨fbsCode w.fbs_option, rfl, ?_⟩,
    ⟨w.restecg, rfl, hre⟩,
    ⟨w.thalach, rfl, hta1, hta2⟩,
    ⟨exangCode w.exang_option, rfl, ?_⟩,
    ⟨w.oldpeak, rfl, ho1, ho2⟩,
    ⟨w.slope, rfl, hsl⟩,
    ⟨w.ca, rfl, hca1, hca2⟩,
    ⟨th, rfl, hthd⟩⟩
  · unfold sexCode; split <;> simp
  · unfold fbsCode; split <;> simp
  · unfold exangCode; split <;> simp

theorem claim_C9_witness :
    ValidInputs defaultInputs ∧
    ∃ r, user_input_features defaultInputs = some r ∧
      r.map Prod.fst = featureSchema ∧
      (∃ a, fieldVal r "age" = some (.i a) ∧ 20 ≤ a ∧ a ≤ 80) ∧
      (∃ s, fieldVal r "sex" = some (.i s) ∧ (s = 0 ∨ s = 1)) ∧
      (∃ k, fieldVal r "cp" = some (.i k) ∧
        (k = 0 ∨ k = 1 ∨ k = 2 ∨ k = 3)) ∧
      (∃ t, fieldVal r "trestbps" = some (.i t) ∧ 80 ≤ t ∧ t ≤ 200) ∧
      (∃ c, fieldVal r "chol" = some (.i c) ∧ 100 ≤ c ∧ c ≤ 600) ∧
      (∃ b, fieldVal r "fbs" = some (.i b) ∧ (b = 0 ∨ b = 1)) ∧
      (∃ e, fieldVal r "restecg" = some (.i e) ∧ (e = 0 ∨ e = 1 ∨ e = 2)) ∧
      (∃ m, fieldVal r "thalach" = some (.i m) ∧ 60 ≤ m ∧ m ≤ 220) ∧
      (∃ x, fieldVal r "exang" = some (.i x) ∧ (x = 0 ∨ x = 1)) ∧
      (∃ o, fieldVal r "oldpeak" = some (.f o) ∧ 0 ≤ o ∧ o ≤ mkRat 31 5) ∧
      (∃ sl, fieldVal r "slope" = some (.i sl) ∧
        (sl = 0 ∨ sl = 1 ∨ sl = 2)) ∧
      (∃ v, fieldVal r "ca" = some (.i v) ∧ 0 ≤ v ∧ v ≤ 3) ∧
      (∃ t2, fieldVal r "thal" = some (.i t2) ∧
        (t2 = 1 ∨ t2 = 2 ∨ t2 = 3)) :=
  ⟨by decide, claim_C9_domain_invariant defaultInputs (by decide)⟩

/-- Claim C4: when the artifact file is absent the load fails with the
NotFound condition, the user-visible error banner is rendered, and pressing
the trigger performs no prediction: the run completes without an exception
and none of the result items (probability metric, risk badge, recommendation,
progress bar) is rendered. -/
theorem claim_C4_missing_artifact :
    joblibLoad FsState.absent = Except.error PyErr.fileNotFound ∧
    ∀ w : Inputs, ValidInputs w →
      ∃ l, runScript FsState.absent w true
          = ({ cache := some none, loads := 1 }, Except.ok l) ∧
        Render.errorBox missingModelMsg ∈ l ∧
        l.all (fun x => !isResultItem x) = true := by
  refine ⟨rfl, fun w h => ?_⟩
  obtain ⟨df, hdf⟩ := uif_some_of_valid w h
  have happ : runApp none w true
      = some [Render.subheader "Patient Data Summary",
              Render.dataSummary df] := by
    simp [runApp, hdf]
  refine ⟨[Render.errorBox missingModelMsg,
    Render.subheader "Patient Data Summary", Render.dataSummary df],
    ?_, by simp, rfl⟩
  simp [runScript, load_model, loadModelBody, joblibLoad, initCache, happ]

theorem claim_C4_witness :
    ValidInputs defaultInputs ∧
    ∃ l, runScript FsState.absent defaultInputs true
        = ({ cache := some none, loads := 1 }, Except.ok l) ∧
      Render.errorBox missingModelMsg ∈ l ∧
      l.all (fun x => !isResultItem x) = true :=
  ⟨by decide, claim_C4_missing_artifact.2 defaultInputs (by decide)⟩

/-- Counterexample to claim C5 as stated: a load failure in which the
artifact exists but cannot be deserialized is not caught — `load_model` only
catches `FileNotFoundError`, so the deserialization error propagates and the
whole script run fails with an unhandled fault instead of a visible,
non-fatal message. -/
theorem claim_C5_counterexample :
    load_model FsState.corrupt initCache
      = ({ cache := none, loads := 1 }, Except.error PyErr.unpicklingError) ∧
    runScript FsState.corrupt defaultInputs true
      = ({ cache := none, loads := 1 }, Except.error PyErr.unpicklingError) :=
  ⟨rfl, rfl⟩

/-- Claim C5 as amended: a load failure because the artifact cannot be
located is caught at load time and surfaced as the visible, non-fatal
banner, and the inference trigger is inert (no prediction attempted, no
result rendered) while the artifact is absent — whether or not the trigger
is pressed; a failure to deserialize an existing artifact is not caught. -/
theorem claim_C5_amended (w : Inputs) (pressed : Bool) (h : ValidInputs w) :
    ∃ l, runScript FsState.absent w pressed
        = ({ cache := some none, loads := 1 }, Except.ok l) ∧
      Render.errorBox missingModelMsg ∈ l ∧
      l.all (fun x => !isResultItem x) = true := by
  obtain ⟨df, hdf⟩ := uif_some_of_valid w h
  have happ : runApp none w pressed
      = some [Render.subheader "Patient Data Summary",
              Render.dataSummary df] := by
    cases pressed <;> simp [runApp, hdf]
  refine ⟨[Render.errorBox missingModelMsg,
    Render.subheader "Patient Data Summary", Render.dataSummary df],
    ?_, by simp, rfl⟩
  simp [runScript, load_model, loadModelBody, joblibLoad, initCache, happ]

theorem claim_C5_witness :
    ValidInputs defaultInputs ∧
    ∃ l, runScript FsState.absent defaultInputs false
        = ({ cache := some none, loads := 1 }, Except.ok l) ∧
      Render.errorBox missingModelMsg ∈ l ∧
      l.all (fun x => !isResultItem x) = true :=
  ⟨by decide, claim_C5_amended defaultInputs false (by decide)⟩

/-- Claim C6: the memoized load is idempotent per process: after a first
call returned a value, a second call returns the very same cached value,
leaves the cache state unchanged (in particular no second deserialization is
counted), and emits nothing. -/
theorem claim_C6_cache_idempotent (fs : FsState) (s1 : CacheState)
    (v : Option ClassifierModel) (r : List Render)
    (h : load_model fs initCache = (s1, Except.ok (v, r))) :
    load_model fs s1 = (s1, Except.ok (v, [])) := by
  cases fs with
  | absent =>
    simp only [load_model, loadModelBody, joblibLoad, initCache,
      Prod.mk.injEq, Except.ok.injEq] at h
    obtain ⟨hs, hv, hr⟩ := h
    subst hs; subst hv
    rfl
  | corrupt =>
    simp only [load_model, loadModelBody, joblibLoad, initCache,
      Prod.mk.injEq] at h
    exact absurd h.2 (by simp)
  | present m =>
    simp only [load_model, loadModelBody, joblibLoad, initCache,
      Prod.mk.injEq, Except.ok.injEq] at h
    obtain ⟨hs, hv, hr⟩ := h
    subst hs; subst hv
    rfl

theorem claim_C6_witness :
    load_model (FsState.present stubHigh)
        { cache := some (some stubHigh), loads := 1 }
      = ({ cache := some (some stubHigh), loads := 1 },
         Except.ok (some stubHigh, [])) :=
  claim_C6_cache_idempotent (FsState.present stubHigh)
    { cache := some (some stubHigh), loads := 1 } (some stubHigh) [] rfl

/-- Claim C10: when the load returned the `None` sentinel, pressing the
trigger renders nothing beyond the Patient Data Summary — no probability
metric, no risk badge, no recommendation, no progress bar — while the
summary echoing the collected record is rendered on every cycle, whatever
the model availability and whether or not the trigger is pressed. -/
theorem claim_C10_none_inert (w : Inputs) (h : ValidInputs w) :
    ∃ df, user_input_features w = some df ∧
      (∀ pressed : Bool, runApp none w pressed
        = some [Render.subheader "Patient Data Summary",
                Render.dataSummary df]) ∧
      [Render.subheader "Patient Data Summary",
        Render.dataSummary df].all (fun x => !isResultItem x) = true ∧
      (∀ (model : Option ClassifierModel) (pressed : Bool),
        ∃ rest, runApp model w pressed
          = some ([Render.subheader "Patient Data Summary",
                   Render.dataSummary df] ++ rest)) := by
  obtain ⟨df, hdf⟩ := uif_some_of_valid w h
  refine ⟨df, hdf, fun pressed => by cases pressed <;> simp [runApp, hdf],
    rfl, fun model pressed => ?_⟩
  cases model with
  | none => exact ⟨[], by cases pressed <;> simp [runApp, hdf]⟩
  | some m =>
    cases pressed with
    | false => exact ⟨[], by simp [runApp, hdf]⟩
    | true =>
      refine ⟨[Render.divider, Render.subheader "Assessment Result",
        Render.metricProb (m df)] ++
        (if is_high_risk (m df) then
          [Render.errorBox "**HIGH RISK**",
           Render.writeText "Recommendation: **Refer to Cardiology**"]
        else
          [Render.successBox "**LOW RISK**",
           Render.writeText "Recommendation: **Standard Follow-up**"]) ++
        [Render.progress (pyTruncTimes100 (m df)),
         Render.caption THRESHOLD], ?_⟩
      simp [runApp, hdf]

theorem claim_C10_witness :
    ValidInputs defaultInputs ∧
    ∃ df, user_input_features defaultInputs = some df ∧
      (∀ pressed : Bool, runApp none defaultInputs pressed
        = some [Render.subheader "Patient Data Summary",
                Render.dataSummary df]) ∧
      [Render.subheader "Patient Data Summary",
        Render.dataSummary df].all (fun x => !isResultItem x) = true ∧
      (∀ (model : Option ClassifierModel) (pressed : Bool),
        ∃ rest, runApp model defaultInputs pressed
          = some ([Render.subheader "Patient Data Summary",
                   Render.dataSummary df] ++ rest)) :=
  ⟨by decide, claim_C10_none_inert defaultInputs (by decide)⟩

end HeartApp
